import Mathlib

/-!
Shallow embedding of `static/main.js` of the AutoSMS repository: a browser
client that uploads a contact spreadsheet, previews parsed rows, lets the
user select rows, submits a send job, and polls its progress.

JavaScript values that can flow into `escapeHtml` (row fields coming from
backend JSON) are modelled by the inductive `JSVal`; JS truthiness and
string coercion are modelled explicitly.  DOM effects are modelled as pure
data: the rendered table is a list of `RenderedRow`, checkbox state is a
`List Bool` (one entry per rendered row, in DOM order), alerts and network
requests are fields of result records.  The progress poller's
`setInterval` loop is modelled as a fold over the finite list of responses
the backend would serve at successive ticks: at each tick, if the interval
has not been cleared, one request is issued and its response processed.
-/

namespace AutoSMS

/-- A JavaScript value as it may appear in a JSON field handled by
`main.js` (strings, numbers, booleans, `null`, or an absent field read as
`undefined`).  Numbers are modelled as integers. -/
inductive JSVal where
  | vnull
  | vundef
  | vstr (s : String)
  | vnum (n : Int)
  | vbool (b : Bool)
deriving DecidableEq, Repr

/-- JS truthiness on the modelled values: `null`, `undefined`, the empty
string, `0` and `false` are falsy; every other modelled value is truthy. -/
def JSVal.falsy : JSVal → Bool
  | .vnull => true
  | .vundef => true
  | .vstr s => s = ""
  | .vnum n => n = 0
  | .vbool b => !b

/-- JS `toString()` coercion on the modelled values. -/
def JSVal.toStr : JSVal → String
  | .vnull => "null"
  | .vundef => "undefined"
  | .vstr s => s
  | .vnum n => toString n
  | .vbool b => if b then "true" else "false"

/-- Replace every occurrence of the character `c` by the character list
`rep`, as a global regex replace `.replace(/c/g, rep)` does on a string
without regex metacharacters. -/
def replaceAll (c : Char) (rep : List Char) : List Char → List Char
  | [] => []
  | x :: xs => (if x = c then rep else [x]) ++ replaceAll c rep xs

/-- The two chained replaces of `escapeHtml` in `main.js`:
`.replace(/&/g,'&amp;').replace(/</g,'&lt;')`.  Note the source does not
escape `>`. -/
def escapeHtmlStr (s : String) : String :=
  ⟨replaceAll '<' "&lt;".data (replaceAll '&' "&amp;".data s.data)⟩

/-- `escapeHtml(s)` from `main.js`, line 37:
`(s||"").toString().replace(/&/g,'&amp;').replace(/</g,'&lt;')`.
`s||""` yields the empty string for every falsy input. -/
def escapeHtml (v : JSVal) : String :=
  escapeHtmlStr (JSVal.toStr (if v.falsy then JSVal.vstr "" else v))

/-- A parsed contact row from the backend preview.  A row is a JS object
(hence always truthy); its `fullname`/`phone` fields may hold any JS
value, including `undefined` when the field is absent. -/
structure PreviewRow where
  fullname : JSVal
  phone : JSVal
deriving DecidableEq, Repr

/-- One `<tr>` produced by `populatePreviewTable`: a checkbox carrying
`data-index`, then the two escaped text cells. -/
structure RenderedRow where
  checkboxIndex : Nat
  fullnameCell : String
  phoneCell : String
deriving DecidableEq, Repr

/-- The row built for index `idx` in the `data.forEach((r, idx) => ...)`
loop of `populatePreviewTable`. -/
def renderRow (idx : Nat) (r : PreviewRow) : RenderedRow :=
  { checkboxIndex := idx
    fullnameCell := escapeHtml r.fullname
    phoneCell := escapeHtml r.phone }

/-- `populatePreviewTable(data)` from `main.js`: clears the table body and
appends one rendered row per element of `data`, in order. -/
def populatePreviewTable (data : List PreviewRow) : List RenderedRow :=
  data.enum.map (fun p => renderRow p.1 p.2)

/-- The `selectAllBtn` handler: sets every preview checkbox checked. -/
def selectAll (boxes : List Bool) : List Bool :=
  boxes.map (fun _ => true)

/-- The `deselectAllBtn` handler: sets every preview checkbox unchecked. -/
def deselectAll (boxes : List Bool) : List Bool :=
  boxes.map (fun _ => false)

/-- `gatherTargetsFromSelection(all)` from `main.js`.  With `all` it
returns the whole `previewData`; otherwise it maps each checkbox (with
its DOM index `i`) to `previewData[i]` if checked, `null` otherwise, and
filters with `Boolean`.  `previewData[i]` is `undefined` past the end of
the array; rows are objects, hence truthy, so `filter(Boolean)` drops
exactly the `null`/`undefined` entries — modelled as `Option` plus
`filterMap id`. -/
def gatherTargetsFromSelection (previewData : List PreviewRow)
    (boxes : List Bool) (all : Bool) : List PreviewRow :=
  if all then previewData
  else
    ((boxes.enum.map (fun p => if p.2 then previewData[p.1]? else none)).filterMap id)

/-- The JSON body posted to `/send`. -/
structure SendRequest where
  message : String
  personalize : Bool
  targets : List PreviewRow
deriving DecidableEq, Repr

/-- The module-level mutable state of `main.js`: `previewJobId` (initially
`null`) and `previewData` (initially `[]`). -/
structure ClientState where
  previewJobId : Option String
  previewData : List PreviewRow
deriving DecidableEq, Repr

/-- JS `x || dflt` for a possibly-absent string field: the default is used
when the field is absent (`undefined`) or the empty string (falsy). -/
def jsOr (v : Option String) (dflt : String) : String :=
  match v with
  | some s => if s = "" then dflt else s
  | none => dflt

/-- Observable outcome of one click of the upload button. -/
structure UploadResult where
  state : ClientState
  alertMsg : Option String
  uploadRequested : Bool
  previewFetched : Bool
deriving DecidableEq, Repr

/-- The `uploadBtn` click handler of `main.js`.  Parameters model the
environment: `hasFile` is whether `fileInput.files` is non-empty;
`resOk`, `jerror`, `jJobId` are the `/upload` response (`res.ok`, the
parsed body's `error` and `job_id` fields); `prevPreview` is the
`preview` field of the `/preview/:job` body (absent field gives
`undefined`, and `prev.preview || []` yields `[]`), consulted only when
the success path fetches it. -/
def uploadClick (st : ClientState) (hasFile : Bool) (resOk : Bool)
    (jerror : Option String) (jJobId : String)
    (prevPreview : Option (List PreviewRow)) : UploadResult :=
  if !hasFile then
    { state := st, alertMsg := some "Pick an Excel file first"
      uploadRequested := false, previewFetched := false }
  else if !resOk then
    { state := st, alertMsg := some ("Upload error: " ++ jsOr jerror "unknown")
      uploadRequested := true, previewFetched := false }
  else
    { state := { previewJobId := some jJobId, previewData := prevPreview.getD [] }
      alertMsg := none, uploadRequested := true, previewFetched := true }

/-- Observable outcome of `startSend`. -/
structure SendResult where
  request : Option SendRequest
  alertMsg : Option String
  progressShown : Bool
  pollStarted : Option String
deriving DecidableEq, Repr

/-- `startSend(targets, personalize)` from `main.js`.  `message` is the
current content of `#messageBox` (empty string is falsy, so `!message`
aborts before the fetch); `resOk`, `jerror`, `jSendJobId` are the `/send`
response, consulted only if the request is issued. -/
def startSend (targets : List PreviewRow) (personalize : Bool)
    (message : String) (resOk : Bool) (jerror : Option String)
    (jSendJobId : String) : SendResult :=
  if message = "" then
    { request := none, alertMsg := some "Please write a message"
      progressShown := false, pollStarted := none }
  else if !resOk then
    { request := some { message := message, personalize := personalize, targets := targets }
      alertMsg := some ("Send error: " ++ jsOr jerror "unknown")
      progressShown := false, pollStarted := none }
  else
    { request := some { message := message, personalize := personalize, targets := targets }
      alertMsg := none, progressShown := true, pollStarted := some jSendJobId }

/-- The `sendSelectedBtn` click handler.  `confirmAnswer` is what
`confirm("No recipients selected. Send to all instead?")` would return;
it is consulted only when the gathered target list is empty.  `none`
means the handler returned before calling `startSend` (the confirmation
was declined), so no `/send` request is made at all. -/
def sendSelectedClick (previewData : List PreviewRow) (boxes : List Bool)
    (confirmAnswer : Bool) (personalize : Bool) (message : String)
    (resOk : Bool) (jerror : Option String) (jSendJobId : String) :
    Option SendResult :=
  let targets := gatherTargetsFromSelection previewData boxes false
  if targets.length = 0 && !confirmAnswer then none
  else some (startSend (if targets.length = 0 then previewData else targets)
    personalize message resOk jerror jSendJobId)

/-- The `/send` request issued (if any) by one `sendSelectedBtn` click. -/
def sendSelectedRequest (previewData : List PreviewRow) (boxes : List Bool)
    (confirmAnswer : Bool) (personalize : Bool) (message : String)
    (resOk : Bool) (jerror : Option String) (jSendJobId : String) :
    Option SendRequest :=
  (sendSelectedClick previewData boxes confirmAnswer personalize message
    resOk jerror jSendJobId).bind (fun r => r.request)

/-- The `sendAllBtn` click handler: always sends `previewData`. -/
def sendAllClick (previewData : List PreviewRow) (personalize : Bool)
    (message : String) (resOk : Bool) (jerror : Option String)
    (jSendJobId : String) : SendResult :=
  startSend previewData personalize message resOk jerror jSendJobId

/-- One parsed `/progress/:jobId` response: `ok` is `res.ok`, the
rest are the JSON body fields read by the poller.  `status` is kept as a
string because the source compares it against the literals
`"completed"`/`"failed"`. -/
structure ProgressResp where
  ok : Bool
  status : String
  percent : Int
  sent : Int
  failedCount : Int
  total : Int
deriving DecidableEq, Repr

/-- The DOM bits the poller writes: `#progressFill`'s width style and
text, and `#progressText`'s text. -/
structure PollDisplay where
  fillWidth : String
  fillText : String
  statusText : String
deriving DecidableEq, Repr

/-- Poller state: `active` is whether the interval is still installed
(`clearInterval` not yet called). -/
structure PollState where
  active : Bool
  display : PollDisplay
deriving DecidableEq, Repr

/-- The body of the `setInterval` callback in `pollProgress`, processing
one response.  On a non-ok response it writes the error text and clears
the interval without touching the fill; otherwise it updates the display
and clears the interval exactly when `status` is `"completed"` or
`"failed"`. -/
def pollStep (st : PollState) (j : ProgressResp) : PollState :=
  if !j.ok then
    { active := false
      display := { st.display with statusText := "Error fetching progress" } }
  else
    let d : PollDisplay :=
      { fillWidth := toString j.percent ++ "%"
        fillText := toString j.percent ++ "%"
        statusText := "Status: " ++ j.status ++ " — Sent: " ++ toString j.sent ++
          " / " ++ toString j.total ++ " — Failed: " ++ toString j.failedCount }
    if j.status = "completed" || j.status = "failed" then
      { active := false, display := d }
    else
      { active := true, display := d }

/-- Run the polling loop against the responses the backend would serve at
successive 1-second ticks: while the interval is active, each tick issues
one `/progress` request and processes its response; once the interval is
cleared no further tick fires.  Returns the final state and the number of
requests issued. -/
def pollRun (st : PollState) : List ProgressResp → PollState × Nat
  | [] => (st, 0)
  | j :: rest =>
    if st.active then
      ((pollRun (pollStep st j) rest).1, (pollRun (pollStep st j) rest).2 + 1)
    else (st, 0)

/-- The state right after `pollProgress` installs the interval (the
display elements start empty). -/
def pollInit : PollState :=
  { active := true
    display := { fillWidth := "", fillText := "", statusText := "" } }

/-- `pollProgress(jobId)` observed over a finite schedule of backend
responses. -/
def pollProgress (responses : List ProgressResp) : PollState × Nat :=
  pollRun pollInit responses

/-- The concrete progress sequence
pending → running(40%) → running(80%) → completed(100%) used by the spec
(all fetches succeed). -/
def demoProgressSeq : List ProgressResp :=
  [ { ok := true, status := "pending", percent := 0, sent := 0, failedCount := 0, total := 5 }
  , { ok := true, status := "running", percent := 40, sent := 2, failedCount := 0, total := 5 }
  , { ok := true, status := "running", percent := 80, sent := 4, failedCount := 0, total := 5 }
  , { ok := true, status := "completed", percent := 100, sent := 5, failedCount := 0, total := 5 } ]

/-- A concrete 3-row preview used to instantiate the spec's examples. -/
def demoRows : List PreviewRow :=
  [ { fullname := JSVal.vstr "Ann", phone := JSVal.vstr "111" }
  , { fullname := JSVal.vstr "Bob", phone := JSVal.vstr "222" }
  , { fullname := JSVal.vstr "Cyd", phone := JSVal.vstr "333" } ]

/-! ## Helper lemmas -/

lemma populatePreviewTable_length (data : List PreviewRow) :
    (populatePreviewTable data).length = data.length := by
  simp [populatePreviewTable]

lemma populatePreviewTable_getElem? (data : List PreviewRow) (i : Nat) :
    (populatePreviewTable data)[i]? = (data[i]?).map (renderRow i) := by
  simp only [populatePreviewTable, List.getElem?_map, List.getElem?_enum]
  cases data[i]? <;> rfl

lemma not_mem_replaceAll {c : Char} {rep : List Char} (h : c ∉ rep) :
    ∀ cs : List Char, c ∉ replaceAll c rep cs := by
  intro cs
  induction cs with
  | nil => simp [replaceAll]
  | cons x xs ih =>
    simp only [replaceAll, List.mem_append]
    rintro (hx | hx)
    · by_cases hxc : x = c
      · rw [if_pos hxc] at hx; exact h hx
      · rw [if_neg hxc] at hx
        simp at hx
        exact hxc hx.symm
    · exact ih hx

lemma escapeHtml_no_lt (v : JSVal) : '<' ∉ (escapeHtml v).data := by
  unfold escapeHtml escapeHtmlStr
  exact not_mem_replaceAll (by decide) _

lemma gather_enumFrom (data : List PreviewRow) (boxes : List Bool) :
    ∀ n : Nat,
    ((List.enumFrom n boxes).map
        (fun p => if p.2 then data[p.1]? else none)).filterMap id
      = (((data.drop n).zip boxes).filter (fun p => p.2)).map Prod.fst := by
  induction boxes with
  | nil => intro n; simp
  | cons b bs ih =>
    intro n
    by_cases hn : n < data.length
    · rw [List.drop_eq_getElem_cons hn, List.zip_cons_cons, List.filter_cons]
      cases b
      · simp only [List.enumFrom_cons, List.map_cons, List.filterMap_cons]
        simpa using ih (n + 1)
      · simp only [List.enumFrom_cons, List.map_cons, List.filterMap_cons,
          List.getElem?_eq_getElem hn]
        simpa using ih (n + 1)
    · have h1 : data[n]? = none := List.getElem?_eq_none (by omega)
      have h2 : data.drop n = [] := List.drop_eq_nil_of_le (by omega)
      have h3 := ih (n + 1)
      rw [List.drop_eq_nil_of_le (by omega : data.length ≤ n + 1)] at h3
      cases b <;> simp [List.filterMap_cons, h1, h2, h3]

lemma gather_false_eq (data : List PreviewRow) (boxes : List Bool) :
    gatherTargetsFromSelection data boxes false
      = ((data.zip boxes).filter (fun p => p.2)).map Prod.fst := by
  have h := gather_enumFrom data boxes 0
  simpa [gatherTargetsFromSelection, List.enum] using h

lemma gather_subset (data : List PreviewRow) (boxes : List Bool) :
    ∀ t ∈ gatherTargetsFromSelection data boxes false, t ∈ data := by
  intro t ht
  rw [gather_false_eq] at ht
  rcases List.mem_map.mp ht with ⟨p, hp, rfl⟩
  obtain ⟨a, c⟩ := p
  exact (List.of_mem_zip (List.mem_of_mem_filter hp)).1

lemma startSend_request {targets : List PreviewRow} {personalize : Bool}
    {message : String} {resOk : Bool} {jerror : Option String} {jid : String}
    {req : SendRequest}
    (h : (startSend targets personalize message resOk jerror jid).request = some req) :
    req.targets = targets ∧ req.message = message ∧ req.personalize = personalize := by
  unfold startSend at h
  split at h
  · exact absurd h (by simp)
  · split at h <;>
      (rw [Option.some_inj] at h; exact h ▸ ⟨rfl, rfl, rfl⟩)

lemma pollStep_err (st : PollState) (j : ProgressResp) (hok : j.ok = false) :
    pollStep st j
      = { active := false
          display := { st.display with statusText := "Error fetching progress" } } := by
  simp [pollStep, hok]

lemma pollStep_terminal (st : PollState) (j : ProgressResp) (hok : j.ok = true)
    (hterm : j.status = "completed" ∨ j.status = "failed") :
    (pollStep st j).active = false := by
  rcases hterm with h | h <;> simp [pollStep, hok, h]

lemma pollRun_inactive (st : PollState) (js : List ProgressResp)
    (h : st.active = false) : pollRun st js = (st, 0) := by
  cases js <;> simp [pollRun, h]

lemma pollRun_append (a : List ProgressResp) :
    ∀ (st : PollState) (b : List ProgressResp),
    pollRun st (a ++ b)
      = ((pollRun (pollRun st a).1 b).1,
          (pollRun st a).2 + (pollRun (pollRun st a).1 b).2) := by
  induction a with
  | nil => intro st b; simp [pollRun]
  | cons x xs ih =>
    intro st b
    by_cases h : st.active
    · simp only [List.cons_append, pollRun, if_pos h, List.append_eq,
        ih (pollStep st x) b, Prod.mk.injEq]
      exact ⟨trivial, by omega⟩
    · have h' : st.active = false := by simpa using h
      simp [pollRun, h', pollRun_inactive st b h']

lemma pollRun_count_err {j : ProgressResp} (hok : j.ok = false) :
    ∀ (pre : List ProgressResp) (st : PollState) (rest : List ProgressResp),
    (pollRun st (pre ++ j :: rest)).2 ≤ pre.length + 1 := by
  intro pre
  induction pre with
  | nil =>
    intro st rest
    by_cases h : st.active
    · have hstop : (pollStep st j).active = false := by
        simp [pollStep, hok]
      simp [pollRun, h, pollRun_inactive _ rest hstop]
    · simp [pollRun, h]
  | cons p ps ih =>
    intro st rest
    by_cases h : st.active
    · have := ih (pollStep st p) rest
      simp only [List.cons_append, pollRun, if_pos h]
      simpa using Nat.succ_le_succ this
    · simp [pollRun, h]

/-! ## Claim theorems -/

/-- C1, as stated, is false on the code: `escapeHtml` escapes only `&`
and `<`, never `>`, so a fullname containing `<script>` renders as
`&lt;script>`, not as the claimed `&lt;script&gt;`.  Concretely, the
one-row table for fullname `<script>` does not carry the claimed cell
text. -/
theorem C1_escape_counterexample :
    (populatePreviewTable
        [{ fullname := JSVal.vstr "<script>", phone := JSVal.vstr "123" }]).map
      (fun row => row.fullnameCell) ≠ ["&lt;script&gt;"] := by decide

/-- C1 (amended): for every successful upload preview, the rendered table
has exactly one row per preview row; each rendered cell is the
HTML-escaping (with `&` and `<` escaped, `>` left as is) of the row's
field, so a fullname containing `<script>` renders as `&lt;script>`; and
no escaped cell ever contains a `<` character, hence cannot open
executable markup. -/
theorem C1_previewTable_amended (data : List PreviewRow) (i : Nat)
    (r : PreviewRow) (h : data[i]? = some r) :
    (populatePreviewTable data).length = data.length
    ∧ (populatePreviewTable data)[i]? = some (renderRow i r)
    ∧ (renderRow i r).fullnameCell = escapeHtml r.fullname
    ∧ (renderRow i r).phoneCell = escapeHtml r.phone
    ∧ escapeHtml (JSVal.vstr "<script>") = "&lt;script>"
    ∧ ∀ v : JSVal, '<' ∉ (escapeHtml v).data := by
  refine ⟨populatePreviewTable_length data, ?_, rfl, rfl, by decide, escapeHtml_no_lt⟩
  rw [populatePreviewTable_getElem?, h]
  rfl

/-- Witness for C1 (amended) at the concrete 3-row preview. -/
theorem C1_previewTable_amended_witness :
    demoRows[0]? = some { fullname := JSVal.vstr "Ann", phone := JSVal.vstr "111" }
    ∧ (populatePreviewTable demoRows).length = demoRows.length :=
  ⟨by decide,
    (C1_previewTable_amended demoRows 0
      { fullname := JSVal.vstr "Ann", phone := JSVal.vstr "111" } (by decide)).1⟩

/-- C4: with one checkbox per preview row, `gatherTargetsFromSelection`
with `all = false` returns exactly the rows whose checkbox is checked, in
original order (it equals the checked-filtered zip, and is a sublist of
the preview, so there are no gaps and no null entries); on the 3-row
preview with rows 0 and 2 checked it returns rows 0 and 2 in order. -/
theorem C4_resolveTargets_selected (data : List PreviewRow)
    (boxes : List Bool) (h : boxes.length = data.length) :
    gatherTargetsFromSelection data boxes false
        = ((data.zip boxes).filter (fun p => p.2)).map Prod.fst
    ∧ (gatherTargetsFromSelection data boxes false).Sublist data
    ∧ gatherTargetsFromSelection demoRows [true, false, true] false
        = [{ fullname := JSVal.vstr "Ann", phone := JSVal.vstr "111" },
           { fullname := JSVal.vstr "Cyd", phone := JSVal.vstr "333" }] := by
  refine ⟨gather_false_eq data boxes, ?_, by decide⟩
  rw [gather_false_eq]
  have h1 : ((data.zip boxes).filter (fun p => p.2)).Sublist (data.zip boxes) :=
    List.filter_sublist _
  have h2 := List.Sublist.map Prod.fst h1
  rwa [List.map_fst_zip data boxes (le_of_eq h.symm)] at h2

/-- Witness for C4 at the 3-row preview with checkboxes 0 and 2 set. -/
theorem C4_resolveTargets_selected_witness :
    ([true, false, true] : List Bool).length = demoRows.length
    ∧ gatherTargetsFromSelection demoRows [true, false, true] false
        = ((demoRows.zip [true, false, true]).filter (fun p => p.2)).map Prod.fst :=
  ⟨by decide, (C4_resolveTargets_selected demoRows [true, false, true] (by decide)).1⟩

/-- C5: with an empty message string, `startSend` issues no `/send`
request, shows the "Please write a message" notice, and starts no
polling; the same holds through both click paths (`sendAllBtn` and
`sendSelectedBtn`). -/
theorem C5_emptyMessage_noSend (targets previewData : List PreviewRow)
    (boxes : List Bool) (confirmAnswer personalize resOk : Bool)
    (jerror : Option String) (jid : String) :
    (startSend targets personalize "" resOk jerror jid).request = none
    ∧ (startSend targets personalize "" resOk jerror jid).alertMsg
        = some "Please write a message"
    ∧ (startSend targets personalize "" resOk jerror jid).pollStarted = none
    ∧ (sendAllClick previewData personalize "" resOk jerror jid).request = none
    ∧ sendSelectedRequest previewData boxes confirmAnswer personalize ""
        resOk jerror jid = none := by
  refine ⟨rfl, rfl, rfl, rfl, ?_⟩
  simp only [sendSelectedRequest, sendSelectedClick]
  split
  · rfl
  · simp [startSend]

/-- C6: on a non-ok `/upload` response the handler leaves `previewJobId`
and `previewData` untouched, fetches no preview, and alerts with the
server-provided error message, falling back to "unknown" when the
response carries no error field. -/
theorem C6_uploadError_aborts (st : ClientState) (jerror : Option String)
    (jJobId : String) (prevPreview : Option (List PreviewRow)) (e : String)
    (he : e ≠ "") :
    (uploadClick st true false jerror jJobId prevPreview).state = st
    ∧ (uploadClick st true false jerror jJobId prevPreview).previewFetched = false
    ∧ (uploadClick st true false jerror jJobId prevPreview).alertMsg
        = some ("Upload error: " ++ jsOr jerror "unknown")
    ∧ (uploadClick st true false none jJobId prevPreview).alertMsg
        = some "Upload error: unknown"
    ∧ (uploadClick st true false (some e) jJobId prevPreview).alertMsg
        = some ("Upload error: " ++ e) := by
  refine ⟨rfl, rfl, rfl, rfl, ?_⟩
  simp [uploadClick, jsOr, he]

/-- Witness for C6 with a concrete server error message. -/
theorem C6_uploadError_aborts_witness :
    ("boom" : String) ≠ ""
    ∧ (uploadClick { previewJobId := none, previewData := [] } true false
          (some "boom") "j1" none).alertMsg = some ("Upload error: " ++ "boom") :=
  ⟨by decide,
    (C6_uploadError_aborts { previewJobId := none, previewData := [] }
      (some "boom") "j1" none "boom" (by decide)).2.2.2.2⟩

/-- C9: `gatherTargetsFromSelection` with `all = true` returns the full
current preview sequence for every checkbox state, in particular after
`selectAll`/`deselectAll`, which set every checkbox uniformly. -/
theorem C9_resolveTargets_all (data : List PreviewRow) (boxes : List Bool) :
    gatherTargetsFromSelection data boxes true = data
    ∧ gatherTargetsFromSelection data (selectAll boxes) true = data
    ∧ gatherTargetsFromSelection data (deselectAll boxes) true = data
    ∧ selectAll boxes = List.replicate boxes.length true
    ∧ deselectAll boxes = List.replicate boxes.length false := by
  exact ⟨rfl, rfl, rfl, List.map_const' boxes true, List.map_const' boxes false⟩

/-- C10, as stated, is false on the code: `(s||"")` maps every falsy
value to the empty string, not only `null` and `undefined`; the number
`0` is not coerced via `toString` (which would give `"0"`) but rendered
as the empty string. -/
theorem C10_coercion_counterexample :
    escapeHtml (JSVal.vnum 0) = ""
    ∧ (JSVal.vnum 0).toStr = "0"
    ∧ escapeHtml (JSVal.vnum 0) ≠ escapeHtmlStr ((JSVal.vnum 0).toStr) := by decide

/-- C10 (amended): `escapeHtml` is total on every modelled input value:
every falsy value (`null`, `undefined`, the empty string, `0`, `false`)
is mapped to the empty string and every truthy value is coerced via
`toString` before escaping, so `populatePreviewTable` renders a row
whose fullname or phone field is missing (`undefined`) as empty cell
text rather than failing. -/
theorem C10_escapeHtml_total_amended (v : JSVal) (idx : Nat) (r : PreviewRow) :
    (v.falsy = true → escapeHtml v = "")
    ∧ (v.falsy = false → escapeHtml v = escapeHtmlStr v.toStr)
    ∧ (r.fullname = JSVal.vundef → (renderRow idx r).fullnameCell = "")
    ∧ (r.phone = JSVal.vundef → (renderRow idx r).phoneCell = "") := by
  refine ⟨?_, ?_, ?_, ?_⟩
  · intro h
    simp only [escapeHtml, h, if_true]
    decide
  · intro h
    simp [escapeHtml, h]
  · intro h
    simp only [renderRow, h]
    decide
  · intro h
    simp only [renderRow, h]
    decide

/-- Witness for C10 (amended) at `undefined`. -/
theorem C10_escapeHtml_total_amended_witness :
    JSVal.vundef.falsy = true ∧ escapeHtml JSVal.vundef = "" :=
  ⟨by decide,
    (C10_escapeHtml_total_amended JSVal.vundef 0
      { fullname := JSVal.vundef, phone := JSVal.vundef }).1 (by decide)⟩

/-- C2: a non-ok `/progress` response clears the interval and writes the
fetch-error text: after processing it, no further request is issued for
the job whatever responses would follow, and over any schedule at most
the requests up to and including the failing one are issued. -/
theorem C2_pollError_halts (st : PollState) (j : ProgressResp)
    (pre rest : List ProgressResp) (hok : j.ok = false) :
    (pollStep st j).active = false
    ∧ (pollStep st j).display.statusText = "Error fetching progress"
    ∧ pollRun (pollStep st j) rest = (pollStep st j, 0)
    ∧ (pollProgress (pre ++ j :: rest)).2 ≤ pre.length + 1 := by
  have hstop : (pollStep st j).active = false := by
    rw [pollStep_err st j hok]
  refine ⟨hstop, ?_, pollRun_inactive _ rest hstop,
    pollRun_count_err hok pre pollInit rest⟩
  rw [pollStep_err st j hok]

/-- Witness for C2 at a concrete failing response. -/
theorem C2_pollError_halts_witness :
    ({ ok := false, status := "pending", percent := 0, sent := 0,
        failedCount := 0, total := 0 } : ProgressResp).ok = false
    ∧ (pollStep pollInit
        { ok := false, status := "pending", percent := 0, sent := 0,
          failedCount := 0, total := 0 }).active = false :=
  ⟨by decide,
    (C2_pollError_halts pollInit
      { ok := false, status := "pending", percent := 0, sent := 0,
        failedCount := 0, total := 0 } [] [] (by decide)).1⟩

/-- C3: a successful response with status `completed` or `failed` clears
the interval, so no request is issued strictly after it; on the concrete
schedule pending → running(40) → running(80) → completed(100), exactly 4
requests are issued whatever responses would follow, and the final
displayed percent is 100. -/
theorem C3_terminal_stops_polling (st : PollState) (j : ProgressResp)
    (rest extra : List ProgressResp) (hok : j.ok = true)
    (hterm : j.status = "completed" ∨ j.status = "failed") :
    (pollStep st j).active = false
    ∧ pollRun (pollStep st j) rest = (pollStep st j, 0)
    ∧ (pollProgress (demoProgressSeq ++ extra)).2 = 4
    ∧ (pollProgress (demoProgressSeq ++ extra)).1.display.fillText = "100%"
    ∧ (pollProgress (demoProgressSeq ++ extra)).1.display.fillWidth = "100%" := by
  have hstop := pollStep_terminal st j hok hterm
  have hdemo : pollRun pollInit demoProgressSeq
      = ({ active := false,
           display := { fillWidth := "100%", fillText := "100%",
                        statusText := "Status: completed — Sent: 5 / 5 — Failed: 0" } }, 4) := by
    decide
  have hfin : pollProgress (demoProgressSeq ++ extra)
      = ({ active := false,
           display := { fillWidth := "100%", fillText := "100%",
                        statusText := "Status: completed — Sent: 5 / 5 — Failed: 0" } }, 4) := by
    show pollRun pollInit (demoProgressSeq ++ extra) = _
    rw [pollRun_append demoProgressSeq pollInit extra, hdemo]
    have hin := pollRun_inactive
      { active := false,
        display := { fillWidth := "100%", fillText := "100%",
                     statusText := "Status: completed — Sent: 5 / 5 — Failed: 0" } }
      extra rfl
    simp [hin]
  refine ⟨hstop, pollRun_inactive _ rest hstop, ?_, ?_, ?_⟩ <;> rw [hfin]

/-- Witness for C3 at the concrete completed response and schedule. -/
theorem C3_terminal_stops_polling_witness :
    ({ ok := true, status := "completed", percent := 100, sent := 5,
        failedCount := 0, total := 5 } : ProgressResp).ok = true
    ∧ ({ ok := true, status := "completed", percent := 100, sent := 5,
          failedCount := 0, total := 5 } : ProgressResp).status = "completed"
    ∧ (pollProgress demoProgressSeq).2 = 4 :=
  ⟨by decide, by decide, by
    have h := (C3_terminal_stops_polling pollInit
      { ok := true, status := "completed", percent := 100, sent := 5,
        failedCount := 0, total := 5 } [] [] (by decide)
      (Or.inl (by decide))).2.2.1
    simpa using h⟩

/-- C7: when the gathered selection is empty and the message is
non-empty, declining the confirmation means the handler returns before
`startSend`, so no `/send` request is issued; accepting it submits the
full current preview sequence as targets, never an empty-target request
standing in for a specific selection. -/
theorem C7_emptySelection_confirm (previewData : List PreviewRow)
    (boxes : List Bool) (personalize resOk : Bool) (message : String)
    (jerror : Option String) (jid : String)
    (hempty : gatherTargetsFromSelection previewData boxes false = [])
    (hmsg : message ≠ "") :
    sendSelectedClick previewData boxes false personalize message resOk jerror jid
        = none
    ∧ sendSelectedRequest previewData boxes false personalize message resOk jerror jid
        = none
    ∧ sendSelectedRequest previewData boxes true personalize message resOk jerror jid
        = some { message := message, personalize := personalize, targets := previewData } := by
  have h0 : (gatherTargetsFromSelection previewData boxes false).length = 0 := by
    rw [hempty]; rfl
  refine ⟨?_, ?_, ?_⟩
  · simp [sendSelectedClick, h0]
  · simp [sendSelectedRequest, sendSelectedClick, h0]
  · cases resOk <;>
      simp [sendSelectedRequest, sendSelectedClick, h0, startSend, hmsg]

/-- Witness for C7 with nothing selected on the 3-row preview. -/
theorem C7_emptySelection_confirm_witness :
    gatherTargetsFromSelection demoRows [false, false, false] false = []
    ∧ ("hi" : String) ≠ ""
    ∧ sendSelectedClick demoRows [false, false, false] false false "hi" true none "sj"
        = none :=
  ⟨by decide, by decide,
    (C7_emptySelection_confirm demoRows [false, false, false] false true "hi"
      none "sj" (by decide) (by decide)).1⟩

/-- C8: every `/send` request the client submits draws its targets from
the current preview sequence: the gathered selection is a subset of
`previewData` by value, any request issued by the send-selected path has
all its targets in `previewData`, and the send-all path always submits
exactly the full `previewData`. -/
theorem C8_targets_subset_invariant (previewData : List PreviewRow)
    (boxes : List Bool) (confirmAnswer personalize resOk : Bool)
    (message : String) (jerror : Option String) (jid : String)
    (req reqAll : SendRequest) :
    (∀ t ∈ gatherTargetsFromSelection previewData boxes false, t ∈ previewData)
    ∧ (sendSelectedRequest previewData boxes confirmAnswer personalize message
          resOk jerror jid = some req → ∀ t ∈ req.targets, t ∈ previewData)
    ∧ ((sendAllClick previewData personalize message resOk jerror jid).request
          = some reqAll → reqAll.targets = previewData) := by
  refine ⟨gather_subset previewData boxes, ?_, ?_⟩
  · intro hreq t ht
    simp only [sendSelectedRequest, sendSelectedClick] at hreq
    split at hreq
    · simp at hreq
    · have hreq' : (startSend
          (if (gatherTargetsFromSelection previewData boxes false).length = 0
            then previewData else gatherTargetsFromSelection previewData boxes false)
          personalize message resOk jerror jid).request = some req := hreq
      have h1 := (startSend_request hreq').1
      rw [h1] at ht
      by_cases h0 : (gatherTargetsFromSelection previewData boxes false).length = 0
      · rw [if_pos h0] at ht
        exact ht
      · rw [if_neg h0] at ht
        exact gather_subset previewData boxes t ht
  · intro h
    have h' : (startSend previewData personalize message resOk jerror jid).request
        = some reqAll := h
    exact (startSend_request h').1

/-- Witness for C8 on the send-all path at concrete inputs. -/
theorem C8_targets_subset_invariant_witness :
    (sendAllClick demoRows false "hi" true none "sj").request
        = some { message := "hi", personalize := false, targets := demoRows }
    ∧ ({ message := "hi", personalize := false, targets := demoRows } : SendRequest).targets
        = demoRows :=
  ⟨by decide,
    (C8_targets_subset_invariant demoRows [] false false true "hi" none "sj"
      { message := "hi", personalize := false, targets := demoRows }
      { message := "hi", personalize := false, targets := demoRows }).2.2 (by decide)⟩

end AutoSMS
